import Mathlib

set_option maxRecDepth 2000

/-!
Shallow embedding of the cart/checkout/catalog logic of `app.py`
(a minimal Flask storefront), for checking the specification claims.

Modelling conventions:
* The SQLite `products` table is a `List Product`, newest-first
  (matching `ORDER BY id DESC`); `SELECT * FROM products WHERE id = ?`
  is `List.find?` on the id.
* The session cart (a Python dict from `str(pid)` to qty, insertion
  ordered) is an association list `List (Nat × Int)`; `dictGet` and
  `dictSet` reproduce `cart.get(k, 0)` and `cart[k] = v` (update in
  place, or append for a fresh key).
* Python ints are `Int`; fallible conversions (`int(s)`, `float(s)`,
  `int(x)` on a float) return `Option`, `none` marking the exception
  the code would raise (`ValueError`, or `OverflowError` for `int` of
  an infinity).
* Python floats are modelled exactly: `float(s)` parses, case
  insensitively, `inf` / `infinity` / `nan` or a decimal literal with
  optional exponent and PEP 515 underscores, and rounds the exact
  value to IEEE-754 binary64 — 53 significant bits, nearest,
  ties-to-even, overflowing to infinity at 2^1024 (`roundDouble`);
  multiplication is the correctly rounded exact product; `int()`
  truncates finite floats toward zero and raises on infinities and
  NaN.  Subnormal results are rounded at 53 significant bits rather
  than on the fixed 2^-1074 grid, which is indistinguishable under the
  only observation made of them here (truncation toward zero).
* Each Flask handler becomes a pure function from its inputs (form
  fields as `Option String`, admin flag, store state) to an explicit
  result constructor (redirects, 404, raised `ValueError`) plus the
  updated state.
-/

/-- A row of the `products` table (schema in `init_db`).  `price_cents`
is `Int` because the INSERT path stores `int(float(price) * 100)` with
no sign check. -/
structure Product where
  id : Nat
  name : String
  price_cents : Int
  description : String
  image : String
deriving DecidableEq, Repr

/-- The session cart: product id ↦ requested quantity, insertion order. -/
abbrev Cart := List (Nat × Int)

/-- One entry of the list built by `cart_items`. -/
structure LineItem where
  product : Product
  qty : Int
  subtotal : Int
deriving DecidableEq, Repr

/-- Python `cart.get(k, 0)`. -/
def dictGet (cart : Cart) (k : Nat) : Int :=
  match cart.find? (fun kv => kv.1 == k) with
  | some kv => kv.2
  | none => 0

/-- Python `cart[k] = v`: replace in place if the key is present, else append
(Python dicts keep insertion order). -/
def dictSet : Cart → Nat → Int → Cart
  | [], k, v => [(k, v)]
  | kv :: rest, k, v =>
      if kv.1 == k then (k, v) :: rest else kv :: dictSet rest k v

/-- The query `SELECT * FROM products WHERE id = ?` followed by `fetchone()`. -/
def findProduct (db : List Product) (pid : Nat) : Option Product :=
  db.find? (fun p => p.id == pid)

/-- Function `cart_items()` (app.py lines 70-81): for each cart entry look the
product up; if the row exists push `{product, qty, subtotal}` with
`subtotal = price_cents * qty` and add the subtotal to the running
total; a missing row is skipped silently. -/
def cart_items (db : List Product) : Cart → List LineItem × Int
  | [] => ([], 0)
  | (pid, qty) :: rest =>
      let r := cart_items db rest
      match findProduct db pid with
      | some row =>
          (⟨row, qty, row.price_cents * qty⟩ :: r.1,
           row.price_cents * qty + r.2)
      | none => r

-- ---------------------------------------------------------------
-- Python string / number primitives used by the handlers
-- ---------------------------------------------------------------

/-- Python `str.strip()`: drop leading and trailing whitespace. -/
def stripChars (l : List Char) : List Char :=
  ((l.dropWhile Char.isWhitespace).reverse.dropWhile Char.isWhitespace).reverse

/-- Python `str.strip()` on a `String`. -/
def pyStrip (s : String) : String :=
  String.mk (stripChars s.data)

/-- Numeric value of a digit string. -/
def digitsVal (l : List Char) : Nat :=
  l.foldl (fun n c => n * 10 + (c.toNat - 48)) 0

/-- Optional leading sign of a numeric literal. -/
def signSplit : List Char → Int × List Char
  | '-' :: rest => (-1, rest)
  | '+' :: rest => (1, rest)
  | l => (1, l)

/-- Validity of the tail of a Python digit run: digits, with single
underscores allowed only between digits (PEP 515). -/
def underscoredTail : List Char → Bool
  | [] => true
  | '_' :: [] => false
  | '_' :: c :: rest => c.isDigit && underscoredTail rest
  | c :: rest => c.isDigit && underscoredTail rest

/-- Validity of a Python digit run: non-empty, starting and ending with
a digit, single underscores only between digits (PEP 515). -/
def underscoredDigits : List Char → Bool
  | [] => false
  | c :: rest => c.isDigit && underscoredTail rest

/-- The digits of a run with the underscores removed. -/
def digitsOf (l : List Char) : List Char :=
  l.filter (fun c => !(c == '_'))

/-- Python `int(s)` on a decimal string: strip whitespace, optional
sign, then a run of digits with optional single underscores between
digits (PEP 515, e.g. `int("1_0") = 10`); anything else raises
`ValueError`, modelled as `none`.  Non-ASCII digits are outside the
inputs exercised here. -/
def pyInt (s : String) : Option Int :=
  let p := signSplit (stripChars s.data)
  if underscoredDigits p.2 then
    some (p.1 * (digitsVal (digitsOf p.2) : Int))
  else none

/-- An exact (unnormalised) rational `num / den`, `den` positive in
every value this development constructs.  Used instead of `ℚ` so that
every operation is structural integer arithmetic. -/
structure Frac where
  num : Int
  den : Nat
deriving DecidableEq, Repr

/-- Exact product of two fractions. -/
def fmul (a b : Frac) : Frac :=
  ⟨a.num * b.num, a.den * b.den⟩

/-- Floor ⌊num / den⌋ (Euclidean division by the positive denominator). -/
def Frac.floor (x : Frac) : Int :=
  Int.ediv x.num (x.den : Int)

/-- Ceiling ⌈num / den⌉. -/
def Frac.ceil (x : Frac) : Int :=
  -(Frac.floor ⟨-x.num, x.den⟩)

/-- The result of Python `float()`: a finite value (an exact fraction
before rounding, a binary64 value after), a signed infinity, or NaN. -/
inductive PyFloat
  | finite (x : Frac)
  | inf (neg : Bool)
  | nan
deriving DecidableEq, Repr

/-- Scaling of an exact fraction by the decimal exponent `10 ^ e`. -/
def applyExp10 (m : Frac) : Int → Frac
  | Int.ofNat n => ⟨m.num * ((10 ^ n : Nat) : Int), m.den⟩
  | Int.negSucc n => ⟨m.num, m.den * 10 ^ (n + 1)⟩

/-- Exact value of the mantissa of a float literal: digits with an
optional single dot and PEP 515 underscores, at least one digit. -/
def mantissaVal (body : List Char) : Option Frac :=
  match body.splitOn '.' with
  | [ip] =>
      if underscoredDigits ip then
        some ⟨(digitsVal (digitsOf ip) : Int), 1⟩
      else none
  | [ip, fp] =>
      if (ip.isEmpty || underscoredDigits ip)
          && (fp.isEmpty || underscoredDigits fp)
          && !(ip.isEmpty && fp.isEmpty) then
        let fd := digitsOf fp
        some ⟨((digitsVal (digitsOf ip) * 10 ^ fd.length
                + digitsVal fd : Nat) : Int), 10 ^ fd.length⟩
      else none
  | _ => none

/-- Exact value denoted by a string accepted by Python `float(s)`:
strip whitespace, optional sign, then case-insensitively `inf` /
`infinity` / `nan`, or a decimal literal `mantissa [e exponent]` with
PEP 515 underscores (e.g. "19.99", "1e2", ".5", "1_0.5").  `none`
models the `ValueError` on anything else; a finite payload is the
exact unrounded rational. -/
def pyFloatLit (s : String) : Option PyFloat :=
  let p := signSplit (stripChars s.data)
  let low := p.2.map Char.toLower
  if low = "inf".data ∨ low = "infinity".data then
    some (.inf (decide (p.1 < 0)))
  else if low = "nan".data then some .nan
  else
    match low.splitOn 'e' with
    | [mant] =>
        (mantissaVal mant).map (fun m => .finite ⟨p.1 * m.num, m.den⟩)
    | [mant, ex] =>
        match mantissaVal mant with
        | none => none
        | some m =>
            let q := signSplit ex
            if underscoredDigits q.2 then
              some (.finite (applyExp10 ⟨p.1 * m.num, m.den⟩
                (q.1 * (digitsVal (digitsOf q.2) : Int))))
            else none
    | _ => none

-- Exact binary64 rounding, on fractions.

/-- The power `2 ^ k` as a fraction, for an integer exponent. -/
def fpow2 : Int → Frac
  | Int.ofNat n => ⟨((2 ^ n : Nat) : Int), 1⟩
  | Int.negSucc n => ⟨1, 2 ^ (n + 1)⟩

/-- Fuel-driven ⌊log₂⌋ on naturals (structural, kernel-reducible). -/
def log2fuel : Nat → Nat → Nat
  | 0, _ => 0
  | f + 1, n => if 2 ≤ n then log2fuel f (n / 2) + 1 else 0

/-- Floor of log₂ n for n ≥ 1 (0 at 0). -/
def natLog2 (n : Nat) : Nat :=
  log2fuel n n

/-- Fuel-driven ⌈log₂⌉ on naturals. -/
def clog2fuel : Nat → Nat → Nat
  | 0, _ => 0
  | f + 1, n => if n ≤ 1 then 0 else clog2fuel f ((n + 1) / 2) + 1

/-- Ceiling of log₂ n for n ≥ 1 (0 at 0). -/
def natClog2 (n : Nat) : Nat :=
  clog2fuel n n

/-- Floor of log₂ x for a positive fraction. -/
def ilog2f (x : Frac) : Int :=
  if (x.den : Int) ≤ x.num then (natLog2 x.floor.toNat : Int)
  else -((natClog2 (Frac.ceil ⟨(x.den : Int), x.num.toNat⟩).toNat : Int))

/-- Round a fraction to the nearest integer, ties to even.  The
remainder `x - ⌊x⌋` is `rn / den`; it is compared with `1/2` by cross
multiplication. -/
def roundHalfEven (x : Frac) : Int :=
  let f := x.floor
  let rn := x.num - f * (x.den : Int)
  if 2 * rn < (x.den : Int) then f
  else if (x.den : Int) < 2 * rn then f + 1
  else if f % 2 = 0 then f else f + 1

/-- Round a positive fraction to 53 significant bits, nearest,
ties-to-even: the IEEE-754 binary64 rounding in the normal range. -/
def roundSigPos (x : Frac) : Frac :=
  let e := ilog2f x
  fmul ⟨roundHalfEven (fmul x (fpow2 (52 - e))), 1⟩ (fpow2 (e - 52))

/-- Binary64 rounding of an exact fraction: round the magnitude to 53
significant bits (nearest, ties-to-even), overflowing to infinity at
2^1024.  Subnormal results are rounded at 53 significant bits rather
than on the fixed 2^-1074 grid; the only observation made of them in
this development, truncation toward zero, is unaffected. -/
def roundDouble (x : Frac) : PyFloat :=
  if x.num = 0 then .finite ⟨0, 1⟩
  else
    let r := roundSigPos (if x.num < 0 then ⟨-x.num, x.den⟩ else x)
    if ((2 ^ 1024 : Nat) : Int) * (r.den : Int) ≤ r.num then
      .inf (decide (x.num < 0))
    else .finite (if x.num < 0 then ⟨-r.num, r.den⟩ else r)

/-- Rounding of a parsed literal: finite values are rounded to
binary64, infinities and NaN pass through. -/
def pyRound : PyFloat → PyFloat
  | .finite x => roundDouble x
  | .inf b => .inf b
  | .nan => .nan

/-- Python `float(s)`: correctly rounded parse of the literal. -/
def pyFloatOfString (s : String) : Option PyFloat :=
  (pyFloatLit s).map pyRound

/-- Python truncation toward zero of an exact fraction. -/
def ratTrunc (x : Frac) : Int :=
  if x.num < 0 then -(Frac.floor ⟨-x.num, x.den⟩) else x.floor

/-- Python float multiplication by a positive finite constant (here
always 100): the exact product correctly rounded, overflowing to
infinity; infinities keep their sign and NaN propagates. -/
def pyMulPF : PyFloat → Frac → PyFloat
  | .finite x, c => roundDouble (fmul x c)
  | .inf b, _ => .inf b
  | .nan, _ => .nan

/-- Python `int(x)` on a float: truncation toward zero for finite
values; `OverflowError` on an infinity and `ValueError` on NaN, both
modelled as `none`. -/
def pyIntOfFloat : PyFloat → Option Int
  | .finite x => some (ratTrunc x)
  | .inf _ => none
  | .nan => none

-- ---------------------------------------------------------------
-- Handlers
-- ---------------------------------------------------------------

/-- Outcome of `POST /cart/add/<pid>`. -/
inductive CartAddResult
  | notFound
  | valueError
  | ok (cart : Cart)
deriving DecidableEq, Repr

/-- Model of `request.form.get("qty", 1)` then `int(...)`: an absent field
defaults to the integer 1, a present field is parsed as an int. -/
def parseQtyField : Option String → Option Int
  | none => some 1
  | some s => pyInt s

/-- Handler `cart_add(pid)` (app.py lines 111-122): look the product up and
`abort(404)` if absent; `qty = max(1, int(form.get("qty", 1)))`
(raising `ValueError` on a malformed string); then
`cart[str(pid)] = cart.get(str(pid), 0) + qty`. -/
def cart_add (db : List Product) (cart : Cart) (pid : Nat)
    (qtyF : Option String) : CartAddResult :=
  match findProduct db pid with
  | none => .notFound
  | some _ =>
      match parseQtyField qtyF with
      | none => .valueError
      | some q => .ok (dictSet cart pid (dictGet cart pid + max 1 q))

/-- Outcome of `POST /checkout`. -/
inductive CheckoutResult
  | validationError
  | success (order_id : Nat) (total : Int)
deriving DecidableEq, Repr

/-- Handler `checkout()` POST branch (app.py lines 132-146): resolve the cart
first, strip the three form fields; if any is empty flash and redirect
leaving the cart alone; else take the current timestamp as order id,
clear the cart, and render success with the pre-clear total. -/
def checkout (db : List Product) (cart : Cart) (now : Nat)
    (nameF emailF addrF : Option String) : CheckoutResult × Cart :=
  let total := (cart_items db cart).2
  let name := pyStrip (nameF.getD "")
  let email := pyStrip (emailF.getD "")
  let address := pyStrip (addrF.getD "")
  if name = "" ∨ email = "" ∨ address = "" then (.validationError, cart)
  else (.success now total, [])

/-- Outcome of the admin mutation handlers. -/
inductive AdminResult
  | redirectLogin
  | valueError
  | redirectProducts
deriving DecidableEq, Repr

/-- Catalog-side state touched by the admin handlers: the products
table, the next AUTOINCREMENT id, and the filenames written to the
uploads directory (in write order). -/
structure StoreSt where
  products : List Product
  nextId : Nat
  uploads : List String
deriving DecidableEq, Repr

/-- The price conversion on the admin insert path:
`int(float(request.form.get("price", "0")) * 100)` (app.py line 179). -/
def admin_price_cents (s : String) : Option Int :=
  (pyFloatOfString s).bind (fun f => pyIntOfFloat (pyMulPF f ⟨100, 1⟩))

/-- Modelled from the spec: werkzeug `secure_filename` is not part of
this repository; §4.5 describes it as stripping path components and
unsafe characters, modelled as keeping alphanumerics, dot, dash and
underscore. -/
def secure_filename (s : String) : String :=
  String.mk (s.data.filter
    (fun c => c.isAlphanum || c == '.' || c == '-' || c == '_'))

/-- Handler `admin_products_add()` (app.py lines 174-195): gate on the session
admin flag; strip the name; convert the price (a `ValueError` here
aborts before anything is written); save the uploaded image, when one
with a non-empty filename is present, BEFORE checking the name; then
redirect with a notice if the name is empty, else INSERT the row. -/
def admin_products_add (isAdmin : Bool) (st : StoreSt)
    (nameF priceF descF : Option String) (imageF : Option String) :
    AdminResult × StoreSt :=
  if !isAdmin then (.redirectLogin, st)
  else
    let name := pyStrip (nameF.getD "")
    match admin_price_cents (priceF.getD "0") with
    | none => (.valueError, st)
    | some price =>
        let description := pyStrip (descF.getD "")
        let p :=
          match imageF with
          | some fn =>
              if fn ≠ "" then
                (secure_filename fn,
                 { st with uploads := st.uploads ++ [secure_filename fn] })
              else ("", st)
          | none => ("", st)
        if name = "" then (.redirectProducts, p.2)
        else
          (.redirectProducts,
           { p.2 with
             products := ⟨p.2.nextId, name, price, description, p.1⟩ :: p.2.products,
             nextId := p.2.nextId + 1 })

/-- Handler `admin_products_delete(pid)` (app.py lines 197-205): gate on the
admin flag, then `DELETE FROM products WHERE id = ?` and redirect. -/
def admin_products_delete (isAdmin : Bool) (st : StoreSt) (pid : Nat) :
    AdminResult × StoreSt :=
  if !isAdmin then (.redirectLogin, st)
  else (.redirectProducts,
        { st with products := st.products.filter (fun p => !(p.id == pid)) })

-- ---------------------------------------------------------------
-- Helper lemmas
-- ---------------------------------------------------------------

/-- Writing a key makes it readable back. -/
theorem dictGet_dictSet_self (cart : Cart) (k : Nat) (v : Int) :
    dictGet (dictSet cart k v) k = v := by
  induction cart with
  | nil => simp [dictGet, dictSet]
  | cons kv rest ih =>
      by_cases h : kv.1 = k
      · simp [dictGet, dictSet, h]
      · simpa [dictGet, dictSet, h] using ih

/-- A key absent from the cart reads as 0. -/
theorem dictGet_eq_zero_of_not_found (cart : Cart) (k : Nat)
    (h : cart.find? (fun kv => kv.1 == k) = none) : dictGet cart k = 0 := by
  simp [dictGet, h]

/-- The floor of a fraction with non-negative numerator is non-negative. -/
theorem Frac.floor_nonneg (x : Frac) (h : 0 ≤ x.num) : 0 ≤ x.floor :=
  Int.ediv_nonneg h (Int.ofNat_nonneg _)

/-- Powers of two have non-negative numerator. -/
theorem fpow2_num_nonneg (k : Int) : 0 ≤ (fpow2 k).num := by
  cases k with
  | ofNat n => exact Int.ofNat_nonneg _
  | negSucc n => exact zero_le_one

/-- Half-even rounding of a fraction with non-negative numerator is
non-negative. -/
theorem roundHalfEven_nonneg (x : Frac) (h : 0 ≤ x.num) :
    0 ≤ roundHalfEven x := by
  have hf : 0 ≤ x.floor := Frac.floor_nonneg x h
  unfold roundHalfEven
  dsimp only
  split_ifs <;> omega

/-- Positive-range rounding keeps the numerator non-negative. -/
theorem roundSigPos_num_nonneg (x : Frac) (h : 0 ≤ x.num) :
    0 ≤ (roundSigPos x).num := by
  unfold roundSigPos fmul
  exact mul_nonneg
    (roundHalfEven_nonneg _ (mul_nonneg h (fpow2_num_nonneg _)))
    (fpow2_num_nonneg _)

/-- Finite binary64 rounding keeps the numerator non-negative. -/
theorem roundDouble_finite_num_nonneg (x r : Frac) (hx : 0 ≤ x.num)
    (h : roundDouble x = .finite r) : 0 ≤ r.num := by
  have hpos : ¬ x.num < 0 := not_lt.mpr hx
  by_cases h0 : x.num = 0
  · have hr : roundDouble x = .finite ⟨0, 1⟩ := by
      simp [roundDouble, h0]
    rw [hr] at h
    injection h with h2
    have h3 : r.num = 0 := by rw [← h2]
    omega
  · by_cases hov : ((2 ^ 1024 : Nat) : Int) * ((roundSigPos x).den : Int)
        ≤ (roundSigPos x).num
    · have hr : roundDouble x = .inf (decide (x.num < 0)) := by
        simp [roundDouble, h0, hpos]
        exact_mod_cast hov
      rw [hr] at h
      exact absurd h (by simp)
    · have hr : roundDouble x = .finite (roundSigPos x) := by
        simp [roundDouble, h0, hpos]
        exact_mod_cast not_le.mp hov
      rw [hr] at h
      injection h with h2
      rw [← h2]
      exact roundSigPos_num_nonneg x hx

/-- Truncation toward zero of a fraction with non-negative numerator is
non-negative. -/
theorem ratTrunc_nonneg (x : Frac) (h : 0 ≤ x.num) : 0 ≤ ratTrunc x := by
  unfold ratTrunc
  rw [if_neg (not_lt.mpr h)]
  exact Frac.floor_nonneg x h

/-- Resolution step when the product of the head entry exists. -/
theorem cart_items_cons_some (db : List Product) (k : Nat) (v : Int)
    (rest : Cart) (row : Product) (hf : findProduct db k = some row) :
    cart_items db ((k, v) :: rest)
      = (⟨row, v, row.price_cents * v⟩ :: (cart_items db rest).1,
         row.price_cents * v + (cart_items db rest).2) := by
  simp only [cart_items, hf]

/-- Resolution step when the product of the head entry is missing. -/
theorem cart_items_cons_none (db : List Product) (k : Nat) (v : Int)
    (rest : Cart) (hf : findProduct db k = none) :
    cart_items db ((k, v) :: rest) = cart_items db rest := by
  simp only [cart_items, hf]

/-- No resolved line item carries a product id that is missing from the
catalog. -/
theorem cart_items_id_ne_of_not_found (db : List Product) (pid : Nat)
    (hgone : findProduct db pid = none) (cart : Cart) :
    ∀ it ∈ (cart_items db cart).1, it.product.id ≠ pid := by
  induction cart with
  | nil => intro it hit; cases hit
  | cons kv rest ih =>
      obtain ⟨k, v⟩ := kv
      intro it hit
      cases hf : findProduct db k with
      | none =>
          rw [cart_items_cons_none db k v rest hf] at hit
          exact ih it hit
      | some row =>
          rw [cart_items_cons_some db k v rest row hf] at hit
          rcases List.mem_cons.mp hit with heq | hmem
          · subst heq
            have hk : row.id = k := by
              have hpred := List.find?_some hf
              simpa using hpred
            intro hc
            simp only at hc
            rw [hk] at hc
            subst hc
            rw [hf] at hgone
            cases hgone
          · exact ih it hmem

/-- Entries whose product id is missing from the catalog do not affect
the resolution at all: filtering them out of the cart leaves both the
line items and the total unchanged. -/
theorem cart_items_filter_of_not_found (db : List Product) (pid : Nat)
    (hgone : findProduct db pid = none) (cart : Cart) :
    cart_items db cart
      = cart_items db (cart.filter (fun kv => !(kv.1 == pid))) := by
  induction cart with
  | nil => rfl
  | cons kv rest ih =>
      obtain ⟨k, v⟩ := kv
      by_cases hk : k = pid
      · subst hk
        have hfilter : ((k, v) :: rest).filter (fun kv => !(kv.1 == k))
            = rest.filter (fun kv => !(kv.1 == k)) := by
          simp [List.filter_cons]
        rw [hfilter, cart_items_cons_none db k v rest hgone, ih]
      · have hfilter : ((k, v) :: rest).filter (fun kv => !(kv.1 == pid))
            = (k, v) :: rest.filter (fun kv => !(kv.1 == pid)) := by
          simp [List.filter_cons, hk]
        rw [hfilter]
        cases hf : findProduct db k with
        | none =>
            rw [cart_items_cons_none db k v rest hf,
              cart_items_cons_none db k v _ hf, ih]
        | some row =>
            rw [cart_items_cons_some db k v rest row hf,
              cart_items_cons_some db k v _ row hf, ih]

-- ---------------------------------------------------------------
-- Claims
-- ---------------------------------------------------------------

/-- Claim C1, counterexample: adding a product id that does not exist
in the catalog does NOT store a cart entry; `cart_add` checks the
catalog first and aborts with 404, so the add does not succeed. -/
theorem cart_add_missing_id_aborts :
    cart_add [] [] 7 (some "2") = CartAddResult.notFound := by decide

/-- Claim C1 as amended: the cart add operation DOES validate product
existence against the catalog at add-time: an id absent from the
catalog yields a 404 and no entry is stored, while for an existing
product the entry is stored (`cart[pid] = cart.get(pid, 0) + max 1
qty`).  Existence is additionally re-checked when the cart is resolved
to line items, where dangling ids are silently skipped. -/
theorem cart_add_checks_existence (db : List Product) (cart : Cart)
    (pid : Nat) (qtyF : Option String) :
    (findProduct db pid = none → cart_add db cart pid qtyF = .notFound) ∧
    (∀ p, findProduct db pid = some p → ∀ q, parseQtyField qtyF = some q →
      cart_add db cart pid qtyF
        = .ok (dictSet cart pid (dictGet cart pid + max 1 q))) := by
  constructor
  · intro h; simp [cart_add, h]
  · intro p hp q hq; simp [cart_add, hp, hq]

/-- Witness for the amended C1 at concrete inputs. -/
theorem cart_add_checks_existence_witness :
    cart_add [] [] 7 (some "1") = CartAddResult.notFound ∧
    cart_add [⟨1, "Aurvic Tee", 1999, "", ""⟩] [] 1 (some "2")
      = CartAddResult.ok [(1, 2)] :=
  ⟨(cart_add_checks_existence [] [] 7 (some "1")).1 (by decide),
   (cart_add_checks_existence [⟨1, "Aurvic Tee", 1999, "", ""⟩] [] 1
      (some "2")).2 ⟨1, "Aurvic Tee", 1999, "", ""⟩ (by decide) 2 (by decide)⟩

/-- Claim C2: checkout submit with any of the three stripped fields
empty returns a validation error and leaves the cart unchanged; with
all three non-empty it clears the cart and returns the timestamp order
id together with the total resolved from the cart before the clear. -/
theorem checkout_validation (db : List Product) (cart : Cart) (now : Nat)
    (nameF emailF addrF : Option String) :
    ((pyStrip (nameF.getD "") = "" ∨ pyStrip (emailF.getD "") = ""
        ∨ pyStrip (addrF.getD "") = "") →
      checkout db cart now nameF emailF addrF
        = (CheckoutResult.validationError, cart)) ∧
    (pyStrip (nameF.getD "") ≠ "" → pyStrip (emailF.getD "") ≠ "" →
      pyStrip (addrF.getD "") ≠ "" →
      checkout db cart now nameF emailF addrF
        = (CheckoutResult.success now (cart_items db cart).2, [])) := by
  constructor
  · intro h; simp only [checkout]; rw [if_pos h]
  · intro h1 h2 h3; simp [checkout, h1, h2, h3]

/-- Witness for C2 at concrete inputs (blank name rejected; full form
accepted with the pre-clear total 2 × 1999). -/
theorem checkout_validation_witness :
    checkout [⟨1, "Aurvic Tee", 1999, "", ""⟩] [(1, 2)] 1700000000
        (some " ") (some "a@b.c") (some "1 Main St")
      = (CheckoutResult.validationError, [(1, 2)]) ∧
    checkout [⟨1, "Aurvic Tee", 1999, "", ""⟩] [(1, 2)] 1700000000
        (some "Ali") (some "a@b.c") (some "1 Main St")
      = (CheckoutResult.success 1700000000 3998, []) :=
  ⟨(checkout_validation [⟨1, "Aurvic Tee", 1999, "", ""⟩] [(1, 2)]
      1700000000 (some " ") (some "a@b.c") (some "1 Main St")).1
      (Or.inl (by decide)),
   (checkout_validation [⟨1, "Aurvic Tee", 1999, "", ""⟩] [(1, 2)]
      1700000000 (some "Ali") (some "a@b.c") (some "1 Main St")).2
      (by decide) (by decide) (by decide)⟩

/-- Claim C3: for every catalog and cart, the total returned by
`cart_items` equals the sum of the subtotals of the returned line
items, and every line item's subtotal is its product's `price_cents`
times its quantity. -/
theorem resolve_total_eq_sum_subtotals (db : List Product) (cart : Cart) :
    (cart_items db cart).2
      = ((cart_items db cart).1.map LineItem.subtotal).sum ∧
    ∀ it ∈ (cart_items db cart).1,
      it.subtotal = it.product.price_cents * it.qty := by
  induction cart with
  | nil => exact ⟨rfl, by intro it hit; cases hit⟩
  | cons kv rest ih =>
      obtain ⟨pid, qty⟩ := kv
      cases hf : findProduct db pid with
      | none =>
          rw [cart_items_cons_none db pid qty rest hf]
          exact ih
      | some row =>
          rw [cart_items_cons_some db pid qty rest row hf]
          constructor
          · simpa using ih.1
          · intro it hit
            rcases List.mem_cons.mp hit with heq | hmem
            · subst heq; rfl
            · exact ih.2 it hmem

/-- Witness for C3 at a concrete catalog and cart (one live and one
dangling entry). -/
theorem resolve_total_eq_sum_subtotals_witness :
    (cart_items [⟨1, "Aurvic Tee", 1999, "", ""⟩] [(1, 2), (9, 1)]).2
      = ((cart_items [⟨1, "Aurvic Tee", 1999, "", ""⟩]
          [(1, 2), (9, 1)]).1.map LineItem.subtotal).sum ∧
    (⟨⟨1, "Aurvic Tee", 1999, "", ""⟩, 2, 3998⟩ : LineItem).subtotal
      = (⟨1, "Aurvic Tee", 1999, "", ""⟩ : Product).price_cents * 2 :=
  ⟨(resolve_total_eq_sum_subtotals [⟨1, "Aurvic Tee", 1999, "", ""⟩]
      [(1, 2), (9, 1)]).1,
   (resolve_total_eq_sum_subtotals [⟨1, "Aurvic Tee", 1999, "", ""⟩]
      [(1, 2), (9, 1)]).2
      ⟨⟨1, "Aurvic Tee", 1999, "", ""⟩, 2, 3998⟩ (by decide)⟩

/-- Claim C4: with the session admin flag false, both admin product
mutations redirect to the login page and return the store state
entirely unchanged (no row inserted or deleted). -/
theorem admin_gate_blocks_unauthorized (st : StoreSt)
    (nameF priceF descF imageF : Option String) (pid : Nat) :
    admin_products_add false st nameF priceF descF imageF
      = (AdminResult.redirectLogin, st) ∧
    admin_products_delete false st pid = (AdminResult.redirectLogin, st) :=
  ⟨rfl, rfl⟩

/-- Claim C5, counterexample: for a product id absent from the catalog
(and from the cart), add with requested quantity "0" does NOT result in
quantity 1 — the handler 404s before touching the cart, so no entry is
stored at all. -/
theorem cart_add_qty_zero_fresh_missing :
    cart_add [] [] 3 (some "0") = CartAddResult.notFound := by decide

/-- Claim C5 as amended: for a product id that exists in the catalog
and is not yet in the cart, add with a quantity string parsing to 0 or
a negative number stores quantity exactly 1 (the parsed quantity is
clamped by `max 1`). -/
theorem cart_add_clamps_fresh_qty (db : List Product) (cart : Cart)
    (pid : Nat) (p : Product) (s : String) (q : Int)
    (hp : findProduct db pid = some p)
    (hfresh : cart.find? (fun kv => kv.1 == pid) = none)
    (hq : pyInt s = some q) (hle : q ≤ 1) :
    cart_add db cart pid (some s) = .ok (dictSet cart pid 1) ∧
    dictGet (dictSet cart pid 1) pid = 1 := by
  have hget : dictGet cart pid = 0 := dictGet_eq_zero_of_not_found cart pid hfresh
  have hmax : max 1 q = 1 := max_eq_left hle
  constructor
  · simp [cart_add, hp, parseQtyField, hq, hget, hmax]
  · exact dictGet_dictSet_self cart pid 1

/-- Witness for the amended C5: adding a catalogued product with qty
"-5" to an empty cart yields quantity 1. -/
theorem cart_add_clamps_fresh_qty_witness :
    cart_add [⟨2, "Aurvic Cap", 1499, "", ""⟩] [] 2 (some "-5")
      = CartAddResult.ok (dictSet [] 2 1) ∧
    dictGet (dictSet [] 2 1) 2 = 1 :=
  cart_add_clamps_fresh_qty [⟨2, "Aurvic Cap", 1499, "", ""⟩] [] 2
    ⟨2, "Aurvic Cap", 1499, "", ""⟩ "-5" (-5)
    (by decide) (by decide) (by decide) (by decide)

/-- Claim C6: a cart entry whose product id is missing from the catalog
is omitted from the resolved line items and excluded from the total:
the resolution equals the resolution of the cart with those entries
filtered out, and no returned item carries the dangling id.
(`cart_items` is a total function, so no error is raised.) -/
theorem resolve_skips_dangling_entry (db : List Product) (cart : Cart)
    (pid : Nat) (q : Int)
    (_hmem : (pid, q) ∈ cart) (hgone : findProduct db pid = none) :
    (∀ it ∈ (cart_items db cart).1, it.product.id ≠ pid) ∧
    cart_items db cart
      = cart_items db (cart.filter (fun kv => !(kv.1 == pid))) :=
  ⟨cart_items_id_ne_of_not_found db pid hgone cart,
   cart_items_filter_of_not_found db pid hgone cart⟩

/-- Witness for C6: with product 5 deleted, the cart (1 ↦ 1, 5 ↦ 2)
resolves exactly as the cart (1 ↦ 1). -/
theorem resolve_skips_dangling_entry_witness :
    cart_items [⟨1, "Aurvic Tee", 1999, "", ""⟩] [(1, 1), (5, 2)]
      = cart_items [⟨1, "Aurvic Tee", 1999, "", ""⟩] [(1, 1)] := by
  have h := (resolve_skips_dangling_entry [⟨1, "Aurvic Tee", 1999, "", ""⟩]
    [(1, 1), (5, 2)] 5 2 (by decide) (by decide)).2
  simpa using h

/-- Claim C7, counterexample: an authorized insert with a non-empty
name and price "-5" is accepted and stores `price_cents = -500`, a
negative value, so not every stored product has non-negative
`price_cents`. -/
theorem admin_add_accepts_negative_price :
    admin_products_add true ⟨[], 1, []⟩ (some "Gift") (some "-5")
        (some "") none
      = (AdminResult.redirectProducts, ⟨[⟨1, "Gift", -500, "", ""⟩], 2, []⟩)
      ∧ (-500 : Int) < 0 :=
  ⟨by decide, by decide⟩

/-- Claim C7 as amended: not every stored product has non-negative
`price_cents` — the insert path applies no sign check and stores
`int(float(price) * 100)`, so the counterexample price "-5" stores
-500.  Conversely, whenever the parsed price value is non-negative,
every product in the post-insert table is either a pre-existing row or
has non-negative `price_cents`.  (Only this direction holds: a tiny
negative price such as "-0.001" truncates to 0, so negative inputs do
not always store negative cents.) -/
theorem admin_add_price_nonneg_of_nonneg_input (st : StoreSt)
    (nameF priceF descF imageF : Option String) (x : Frac)
    (hp : pyFloatOfString (priceF.getD "0") = some (PyFloat.finite x))
    (hx : 0 ≤ x.num) :
    ∀ pr ∈ (admin_products_add true st nameF priceF descF imageF).2.products,
      pr ∈ st.products ∨ 0 ≤ pr.price_cents := by
  intro pr hpr
  cases hr : roundDouble (fmul x ⟨100, 1⟩) with
  | inf b =>
      have hc : admin_price_cents (priceF.getD "0") = none := by
        simp [admin_price_cents, hp, pyMulPF, hr, pyIntOfFloat]
      simp [admin_products_add, hc] at hpr
      exact Or.inl hpr
  | nan =>
      have hc : admin_price_cents (priceF.getD "0") = none := by
        simp [admin_price_cents, hp, pyMulPF, hr, pyIntOfFloat]
      simp [admin_products_add, hc] at hpr
      exact Or.inl hpr
  | finite r =>
      have hc : admin_price_cents (priceF.getD "0") = some (ratTrunc r) := by
        simp [admin_price_cents, hp, pyMulPF, hr, pyIntOfFloat]
      have hnn : 0 ≤ ratTrunc r :=
        ratTrunc_nonneg _ (roundDouble_finite_num_nonneg _ _
          (by simpa [fmul] using mul_nonneg hx (by norm_num : (0 : Int) ≤ 100))
          hr)
      rcases imageF with _ | fn
      · by_cases hn : pyStrip (nameF.getD "") = ""
        · simp [admin_products_add, hc, hn] at hpr
          exact Or.inl hpr
        · simp [admin_products_add, hc, hn] at hpr
          rcases hpr with heq | hmem
          · subst heq; exact Or.inr hnn
          · exact Or.inl hmem
      · by_cases hfn : fn = ""
        · by_cases hn : pyStrip (nameF.getD "") = ""
          · simp [admin_products_add, hc, hn, hfn] at hpr
            exact Or.inl hpr
          · simp [admin_products_add, hc, hn, hfn] at hpr
            rcases hpr with heq | hmem
            · subst heq; exact Or.inr hnn
            · exact Or.inl hmem
        · by_cases hn : pyStrip (nameF.getD "") = ""
          · simp [admin_products_add, hc, hn, hfn] at hpr
            exact Or.inl hpr
          · simp [admin_products_add, hc, hn, hfn] at hpr
            rcases hpr with heq | hmem
            · subst heq; exact Or.inr hnn
            · exact Or.inl hmem

/-- Witness for the amended C7: inserting with price "1" stores 100
cents, which is non-negative. -/
theorem admin_add_price_nonneg_witness :
    (⟨1, "Gift", 100, "", ""⟩ : Product) ∈ ([] : List Product)
      ∨ (0 : Int) ≤ (⟨1, "Gift", 100, "", ""⟩ : Product).price_cents :=
  admin_add_price_nonneg_of_nonneg_input ⟨[], 1, []⟩ (some "Gift")
    (some "1") (some "") none ⟨2 ^ 52, 2 ^ 52⟩ (by decide) (by decide)
    ⟨1, "Gift", 100, "", ""⟩ (by decide)

/-- Claim C8, counterexample: not every qty / price form string is
handled: a non-numeric qty makes cart add raise `ValueError` (an
unhandled exception, not a redirect), and a non-numeric price does the
same to admin insert. -/
theorem nonnumeric_forms_raise :
    cart_add [⟨1, "Aurvic Hoodie", 4999, "", ""⟩] [] 1 (some "abc")
      = CartAddResult.valueError ∧
    admin_products_add true ⟨[], 1, []⟩ (some "X") (some "abc")
        (some "") none
      = (AdminResult.valueError, ⟨[], 1, []⟩) :=
  ⟨by decide, by decide⟩

/-- Claim C8 as amended: the coded failure paths (missing product,
empty name, empty checkout fields, failed admin gate) resolve to
redirects or 404, but numeric conversion is NOT protected: cart add
raises `ValueError` exactly when the product exists and the qty string
fails `int()`, and the authorized admin insert raises exactly when the
conversion `int(float(price) * 100)` raises — the price string fails
`float()`, or it parses to an infinity or NaN (possibly by overflow of
the parse or of the product, e.g. "inf", "nan", "1e400", "1.7e307") so
that the outer `int()` raises. -/
theorem failure_paths_characterized (db : List Product) (cart : Cart)
    (pid : Nat) (qtyF : Option String) (st : StoreSt)
    (nameF priceF descF imageF : Option String) :
    (cart_add db cart pid qtyF = .valueError
      ↔ (findProduct db pid).isSome ∧ parseQtyField qtyF = none) ∧
    ((admin_products_add true st nameF priceF descF imageF).1
        = .valueError
      ↔ admin_price_cents (priceF.getD "0") = none) := by
  constructor
  · cases hf : findProduct db pid with
    | none => simp [cart_add, hf]
    | some p =>
        cases hq : parseQtyField qtyF with
        | none => simp [cart_add, hf, hq]
        | some q => simp [cart_add, hf, hq]
  · cases hc : admin_price_cents (priceF.getD "0") with
    | none => simp [admin_products_add, hc]
    | some c =>
        rcases imageF with _ | fn
        · by_cases hn : pyStrip (nameF.getD "") = "" <;>
            simp [admin_products_add, hc, hn]
        · by_cases hfn : fn = "" <;>
            by_cases hn : pyStrip (nameF.getD "") = "" <;>
            simp [admin_products_add, hc, hn, hfn]

/-- Witness for the amended C8: qty "x1" on an existing product raises. -/
theorem failure_paths_characterized_witness :
    cart_add [⟨1, "Aurvic Hoodie", 4999, "", ""⟩] [] 1 (some "x1")
      = CartAddResult.valueError :=
  (failure_paths_characterized [⟨1, "Aurvic Hoodie", 4999, "", ""⟩] []
    1 (some "x1") ⟨[], 1, []⟩ none none none none).1.mpr (by decide)

/-- Claim C9: an authorized insert carrying a non-empty upload filename
and a name that strips to empty inserts NO product row, yet the
sanitized file has already been written to the uploads directory when
the name check fires: validation is not atomic with file storage.  The
hypothesis that the price conversion succeeds matches the claim's
presupposition that execution reaches the image save and name check (a
raising conversion at line 179 happens before either). -/
theorem admin_add_empty_name_still_uploads (st : StoreSt)
    (nameF priceF descF : Option String) (fn : String) (c : Int)
    (hfn : fn ≠ "") (hname : pyStrip (nameF.getD "") = "")
    (hp : admin_price_cents (priceF.getD "0") = some c) :
    admin_products_add true st nameF priceF descF (some fn)
      = (AdminResult.redirectProducts,
         { st with uploads := st.uploads ++ [secure_filename fn] }) := by
  simp [admin_products_add, hp, hfn, hname]

/-- Witness for C9: a blank name plus upload "shot 1.png" writes the
sanitized file and inserts nothing. -/
theorem admin_add_empty_name_still_uploads_witness :
    admin_products_add true ⟨[], 5, []⟩ (some "  ") none (some "")
        (some "shot 1.png")
      = (AdminResult.redirectProducts, ⟨[], 5, ["shot1.png"]⟩) := by
  have h := admin_add_empty_name_still_uploads ⟨[], 5, []⟩ (some "  ")
    none (some "") "shot 1.png" 0 (by decide) (by decide) (by decide)
  simpa using h

/-- Claim C10: the admin price conversion is `int(float(price) * 100)`,
truncating the binary64 product toward zero; for the two-decimal price
string "19.99" (exactly 1999 cents) the stored value is 1998, off by
one, and a whole insert of such a product stores 1998. -/
theorem admin_price_1999_truncation :
    admin_price_cents "19.99" = some 1998 ∧
    pyFloatLit "19.99" = some (PyFloat.finite ⟨1999, 100⟩) ∧
    admin_products_add true ⟨[], 1, []⟩ (some "Tee") (some "19.99")
        (some "") none
      = (AdminResult.redirectProducts, ⟨[⟨1, "Tee", 1998, "", ""⟩], 2, []⟩) :=
  ⟨by decide, by decide, by decide⟩
